import Mathlib

/-!
Verification of the DockyMe USB monitor (src/docky.py) against its
specification. The Python source is shallowly embedded: device records
become a structure of optional string attributes, the Python string
operations `sep in s` and `s.split(sep)` become executable functions on
character lists, and the monitor loop of `monitor_devices` becomes a
function over an explicit script of poll outcomes.
-/

namespace Docky

/-- First occurrence of the separator inside a character list: returns
the characters strictly before the occurrence and the characters
strictly after it, or none when the separator does not occur. This is
the scanning primitive behind Python's `sep in s` and `s.split(sep)`. -/
def breakOnSep (sep : List Char) : List Char → Option (List Char × List Char)
  | [] => none
  | c :: rest =>
    if sep.isPrefixOf (c :: rest) then
      some ([], (c :: rest).drop sep.length)
    else
      (breakOnSep sep rest).map (fun p => (c :: p.1, p.2))

/-- Characters before the first occurrence of the separator (the whole
list when the separator does not occur); equals `s.split(sep)[0]`. -/
def takeBefore (sep l : List Char) : List Char :=
  match breakOnSep sep l with
  | none => l
  | some p => p.1

/-- Characters after the first occurrence of the separator, empty when
the separator does not occur. -/
def afterSep (sep l : List Char) : List Char :=
  match breakOnSep sep l with
  | none => []
  | some p => p.2

/-- Fuelled splitting on a separator, scanning left to right over
non-overlapping occurrences, as Python's `str.split(sep)` does. -/
def pySplitF (sep : List Char) : Nat → List Char → List (List Char)
  | 0, l => [l]
  | fuel + 1, l =>
    match breakOnSep sep l with
    | none => [l]
    | some (b, a) => b :: pySplitF sep fuel a

/-- Python's `s.split(sep)` for a non-empty separator: each occurrence
consumes at least one character, so `l.length + 1` units of fuel always
suffice. -/
def pySplit (sep l : List Char) : List (List Char) :=
  pySplitF sep (l.length + 1) l

/-- Python's substring test `sub in s`. -/
def pyIn (sub s : String) : Bool :=
  (breakOnSep sub.data s.data).isSome

/-- A WMI device object as `get_device_details` reads it: the four
attributes it probes with `hasattr`, each possibly absent. -/
structure Device where
  Caption : Option String
  Description : Option String
  DeviceID : Option String
  Status : Option String
deriving DecidableEq

/-- The dictionary returned by `get_device_details` (key `Vendor ID`
is rendered as `VendorID`). -/
structure DeviceDetails where
  Name : String
  VendorID : String
  Status : String
deriving DecidableEq

/-- The Python expression `device_id.split("VID_")[1].split("&")[0]`
from `get_device_details`. Python list indexing raises `IndexError`
out of bounds, modelled by `Except.error`. -/
def vendorIdExpr (device_id : String) : Except String String :=
  match (pySplit "VID_".data device_id.data)[1]? with
  | none => Except.error "IndexError"
  | some part =>
    match (pySplit "&".data part)[0]? with
    | none => Except.error "IndexError"
    | some v => Except.ok (String.mk v)

/-- `USBMonitor.get_device_details`: starts from the all-`"Unknown"`
dictionary, sets `Name` from `Caption`, else from `Description`; sets
`Vendor ID` by the split expression when the `DeviceID` attribute is
present and contains `"VID_"`; finally sets `Status`. The whole body is
wrapped in `try/except`, so were the split expression to raise, the
assignments after it would be skipped and the dictionary built so far
would be returned. -/
def getDeviceDetails (device : Device) : DeviceDetails :=
  let name :=
    match device.Caption with
    | some c => c
    | none =>
      match device.Description with
      | some d => d
      | none => "Unknown"
  match device.DeviceID with
  | none =>
    { Name := name, VendorID := "Unknown", Status := device.Status.getD "Unknown" }
  | some id =>
    if pyIn "VID_" id then
      match vendorIdExpr id with
      | Except.ok v =>
        { Name := name, VendorID := v, Status := device.Status.getD "Unknown" }
      | Except.error _ =>
        { Name := name, VendorID := "Unknown", Status := "Unknown" }
    else
      { Name := name, VendorID := "Unknown", Status := device.Status.getD "Unknown" }

/-- The vendor id as claim C10 words it: the substring between the
first occurrence of `"VID_"` and the next `"&"` after it (to the end of
the string when no `"&"` follows); none when `"VID_"` does not occur. -/
def claimVendorId (id : String) : Option String :=
  (breakOnSep "VID_".data id.data).map (fun p => String.mk (takeBefore "&".data p.2))

/-- The `'-'*50` separator line used by every message. -/
def dashes : String := String.mk (List.replicate 50 '-')

/-- The lines of the startup `Device Found` message (lines 148-155). -/
def deviceFoundLines (det : DeviceDetails) : List String :=
  ["Device Found:",
   "Name: " ++ det.Name,
   "Vendor ID: " ++ det.VendorID,
   "Status: " ++ det.Status,
   dashes]

/-- The lines of the `New Device Connected` message (lines 150-157 of
the polling loop). -/
def newDeviceLines (det : DeviceDetails) : List String :=
  ["New Device Connected:",
   "Name: " ++ det.Name,
   "Vendor ID: " ++ det.VendorID,
   "Status: " ++ det.Status,
   dashes]

/-- The lines of the `Device Disconnected` message (lines 164-170);
the source builds it without a `Status` line. -/
def deviceDisconnectedLines (det : DeviceDetails) : List String :=
  ["Device Disconnected:",
   "Name: " ++ det.Name,
   "Vendor ID: " ++ det.VendorID,
   dashes]

/-- The `Device Found` message string: the f-string concatenation puts
one line break between consecutive lines and none at the end. -/
def deviceFoundMessage (device : Device) : String :=
  String.intercalate "\n" (deviceFoundLines (getDeviceDetails device))

/-- The `New Device Connected` message string. -/
def newDeviceMessage (device : Device) : String :=
  String.intercalate "\n" (newDeviceLines (getDeviceDetails device))

/-- The `Device Disconnected` message string. -/
def deviceDisconnectedMessage (device : Device) : String :=
  String.intercalate "\n" (deviceDisconnectedLines (getDeviceDetails device))

/-- The messages queued by the startup enumeration: the header,
then one `Device Found` message per currently attached device. -/
def currentDevicesMessages (devices : List Device) : List String :=
  "=== Current USB Devices ===" :: devices.map deviceFoundMessage

/-- Outcome of one blocking `watch_for` wait with `timeout_ms=100`:
the wait either raises `wmi.x_wmi_timed_out`, returns a value (a device,
or a falsy result that the `if` guard skips), or raises some other
exception. -/
inductive WaitOutcome where
  | timeout
  | result (d : Option Device)
  | failure (msg : String)
deriving DecidableEq

/-- The outside world's behaviour during one iteration of the polling
loop: what the creation wait and then the deletion wait do. -/
structure PollInput where
  creation : WaitOutcome
  deletion : WaitOutcome
deriving DecidableEq

/-- Queue messages and log lines produced when the creation wait
returns: a message and an info log line when a device was returned,
nothing when the result was falsy. -/
def creationEvent : Option Device → List String × List String
  | some d =>
    ([newDeviceMessage d], ["New device connected: " ++ (getDeviceDetails d).Name])
  | none => ([], [])

/-- Queue messages and log lines produced when the deletion wait
returns. -/
def deletionEvent : Option Device → List String × List String
  | some d =>
    ([deviceDisconnectedMessage d],
     ["Device disconnected: " ++ (getDeviceDetails d).Name])
  | none => ([], [])

/-- One iteration of the `while running` body (queued messages, log
lines). A timeout raised by either wait is caught by
`except wmi.x_wmi_timed_out: continue`, keeping whatever the iteration
already queued; any other exception is caught by the generic handler,
which logs it and queues an error message; in every case the iteration
ends normally. -/
def pollIteration (inp : PollInput) : List String × List String :=
  match inp.creation with
  | .timeout => ([], [])
  | .failure e =>
    (["Error monitoring devices: " ++ e], ["Error in device monitoring: " ++ e])
  | .result r =>
    let c := creationEvent r
    match inp.deletion with
    | .timeout => c
    | .failure e =>
      (c.1 ++ ["Error monitoring devices: " ++ e],
       c.2 ++ ["Error in device monitoring: " ++ e])
    | .result r2 =>
      let d := deletionEvent r2
      (c.1 ++ d.1, c.2 ++ d.2)

/-- What a run of `monitor_devices` produced: the messages put on the
event queue, the log lines written, and how many poll iterations were
begun. -/
structure MonitorResult where
  queued : List String
  logs : List String
  iterations : Nat
deriving DecidableEq

/-- The `while running:` polling loop. Each list entry carries the
value of the shared `running` flag as read by the loop condition for
that candidate iteration, and the poll outcomes the iteration would
observe; the loop stops at the first `false` reading and otherwise runs
the iteration and goes on. -/
def monitorLoop : List (Bool × PollInput) → MonitorResult
  | [] => { queued := [], logs := [], iterations := 0 }
  | (flag, inp) :: rest =>
    if flag then
      let (q, lg) := pollIteration inp
      let r := monitorLoop rest
      { queued := q ++ r.queued, logs := lg ++ r.logs, iterations := r.iterations + 1 }
    else
      { queued := [], logs := [], iterations := 0 }

/-- Outcome of the setup phase of `monitor_devices` (WMI connection,
the two `watch_for` registrations, and the `Win32_USBHub()` enumeration,
all executed before the loop): either the list of current devices, or
an exception message. -/
inductive SetupOutcome where
  | ok (currentDevices : List Device)
  | failure (msg : String)

/-- A complete run scenario for `monitor_devices`. -/
structure MonitorInput where
  setup : SetupOutcome
  script : List (Bool × PollInput)

/-- `USBMonitor.monitor_devices`: a setup failure is caught by the
outer handler, which logs it and queues one error message, and the
function returns without ever entering the polling loop; otherwise the
startup enumeration messages are queued and the polling loop runs. -/
def monitorDevices (inp : MonitorInput) : MonitorResult :=
  match inp.setup with
  | .failure e =>
    { queued := ["Error initializing device monitoring: " ++ e],
      logs := ["Error in monitor_devices: " ++ e],
      iterations := 0 }
  | .ok devices =>
    let r := monitorLoop inp.script
    { queued := currentDevicesMessages devices ++ r.queued,
      logs := r.logs,
      iterations := r.iterations }

/-- The application state touched by the GUI actions: the visible text
widget, the `usb_device_log.txt` contents, the event queue, and the
shared `running` flag. -/
structure AppState where
  textBox : List String
  logFile : List String
  queue : List String
  running : Bool

/-- The `Clear Log` button's command,
`lambda: text_box.delete(1.0, tk.END)`: it deletes the text widget's
contents and touches nothing else. -/
def clearLog (s : AppState) : AppState :=
  { s with textBox := [] }

/-- One primitive step on the shared event queue: a `put` from the
monitor thread, or one `get_nowait` step of the drain loop in
`update_gui_from_queue` (which first checks `empty()`, so a step on an
empty queue does nothing). -/
inductive QueueOp where
  | push (m : String)
  | pop

/-- The queue contents together with the lines appended to the text
widget so far. -/
structure QueueState where
  queue : List String
  displayed : List String

/-- Effect of one queue operation. -/
def stepOp (s : QueueState) : QueueOp → QueueState
  | .push m => { s with queue := s.queue ++ [m] }
  | .pop =>
    match s.queue with
    | [] => s
    | m :: rest => { queue := rest, displayed := s.displayed ++ [m] }

/-- Run a whole interleaving of producer pushes and consumer drain
steps. -/
def runOps (s : QueueState) : List QueueOp → QueueState
  | [] => s
  | op :: rest => runOps (stepOp s op) rest

/-- The messages pushed by an operation sequence, in push order. -/
def pushedMessages : List QueueOp → List String
  | [] => []
  | .push m :: rest => m :: pushedMessages rest
  | .pop :: rest => pushedMessages rest

/-- The device of the end-to-end scenario: identifier
`USB\VID_ABCD&PID_0001`, caption `Test Device`. -/
def testCreationDevice : Device :=
  { Caption := some "Test Device",
    Description := none,
    DeviceID := some "USB\\VID_ABCD&PID_0001",
    Status := none }

/-! ## Lemmas about the split expression -/

/-- When `breakOnSep` finds the separator, the input decomposes as the
part before, the separator, and the part after. -/
theorem breakOnSep_some_append {sep : List Char} :
    ∀ {l b a : List Char}, breakOnSep sep l = some (b, a) → l = b ++ sep ++ a := by
  intro l
  induction l with
  | nil => intro b a h; simp [breakOnSep] at h
  | cons c rest ih =>
    intro b a h
    by_cases hp : sep.isPrefixOf (c :: rest)
    · rw [breakOnSep, if_pos hp] at h
      injection h with h2
      injection h2 with hb ha
      obtain ⟨t, ht⟩ := List.isPrefixOf_iff_prefix.mp hp
      subst hb
      rw [← ha, List.nil_append, ← ht, List.drop_left]
    · rw [breakOnSep, if_neg hp] at h
      cases hbr : breakOnSep sep rest with
      | none => rw [hbr] at h; exact absurd h (by simp)
      | some p =>
        obtain ⟨b1, a1⟩ := p
        rw [hbr] at h
        injection h with h2
        injection h2 with hb ha
        subst ha
        rw [← hb]
        simpa using ih hbr

/-- With at least one unit of fuel, the first chunk of the split is the
part before the first occurrence of the separator. -/
theorem pySplitF_get_zero (sep : List Char) (fuel : Nat) (l : List Char) :
    (pySplitF sep (fuel + 1) l)[0]? = some (takeBefore sep l) := by
  cases h : breakOnSep sep l <;> simp [pySplitF, takeBefore, h]

/-- `s.split(sep)[0]` always exists and is the part before the first
occurrence of the separator. -/
theorem pySplit_get_zero (sep l : List Char) :
    (pySplit sep l)[0]? = some (takeBefore sep l) :=
  pySplitF_get_zero sep l.length l

/-- For a non-empty separator that occurs in the input,
`s.split(sep)[1]` exists and is the part after the first occurrence,
truncated at the next occurrence of the separator. -/
theorem pySplit_get_one {sep l b a : List Char}
    (hne : sep ≠ []) (h : breakOnSep sep l = some (b, a)) :
    (pySplit sep l)[1]? = some (takeBefore sep a) := by
  have hl : l = b ++ sep ++ a := breakOnSep_some_append h
  have hpos : 0 < l.length := by
    rw [hl]
    cases sep with
    | nil => exact absurd rfl hne
    | cons c cs =>
      rw [List.length_append, List.length_append, List.length_cons]
      omega
  obtain ⟨k, hk⟩ : ∃ k, l.length = k + 1 := ⟨l.length - 1, by omega⟩
  rw [pySplit, hk,
    show pySplitF sep (k + 1 + 1) l = b :: pySplitF sep (k + 1) a by
      simp [pySplitF, h]]
  simpa using pySplitF_get_zero sep k a

/-- The split expression never raises when the identifier contains
`"VID_"`: it returns the part after the first `"VID_"`, truncated at
the next `"VID_"` and then at the next `"&"`. -/
theorem vendorIdExpr_eq_ok {id : String} (h : pyIn "VID_" id = true) :
    vendorIdExpr id =
      Except.ok (String.mk (takeBefore "&".data
        (takeBefore "VID_".data (afterSep "VID_".data id.data)))) := by
  rw [pyIn] at h
  obtain ⟨p, hp⟩ := Option.isSome_iff_exists.mp h
  obtain ⟨b, a⟩ := p
  have h1 := pySplit_get_one (l := id.data) (by decide) hp
  rw [vendorIdExpr, h1]
  simp [pySplit_get_zero, afterSep, hp]

/-- Closed form of `get_device_details`: the exception branch is
unreachable, `Name` prefers `Caption` over `Description`, and `Status`
is copied whenever present. -/
theorem getDeviceDetails_eq (dev : Device) :
    getDeviceDetails dev =
      { Name := dev.Caption.getD (dev.Description.getD "Unknown"),
        VendorID :=
          match dev.DeviceID with
          | none => "Unknown"
          | some id =>
            if pyIn "VID_" id then
              String.mk (takeBefore "&".data
                (takeBefore "VID_".data (afterSep "VID_".data id.data)))
            else "Unknown",
        Status := dev.Status.getD "Unknown" } := by
  obtain ⟨cap, desc, did, st⟩ := dev
  cases did with
  | none => cases cap <;> cases desc <;> rfl
  | some id =>
    by_cases hvid : pyIn "VID_" id
    · simp only [getDeviceDetails, hvid, vendorIdExpr_eq_ok hvid, if_pos]
      cases cap <;> cases desc <;> rfl
    · simp only [getDeviceDetails, hvid, Bool.false_eq_true, if_false]
      cases cap <;> cases desc <;> rfl

/-- Two lists with distinct head characters: the first is not a prefix
of the second. -/
theorem isPrefixOf_cons_ne {a b : Char} (h : (a == b) = false) (as bs : List Char) :
    List.isPrefixOf (a :: as) (b :: bs) = false := by
  simp [List.isPrefixOf, h]

/-- A character list starting with anything but `'S'` does not start
with `"Status:"`. -/
theorem status_not_isPrefixOf_cons {c : Char} (hc : ('S' == c) = false) (l : List Char) :
    List.isPrefixOf "Status:".data (c :: l) = false := by
  rw [show "Status:".data = 'S' :: "tatus:".data from rfl]
  exact isPrefixOf_cons_ne hc _ _

/-- Running an interleaving of queue operations keeps the invariant:
what has been displayed followed by what is still queued is exactly the
initial contents followed by everything pushed, in push order. -/
theorem runOps_fifo (ops : List QueueOp) :
    ∀ s : QueueState,
      (runOps s ops).displayed ++ (runOps s ops).queue =
        s.displayed ++ s.queue ++ pushedMessages ops := by
  induction ops with
  | nil => intro s; simp [runOps, pushedMessages]
  | cons op rest ih =>
    intro s
    obtain ⟨q, d⟩ := s
    cases op with
    | push m =>
      rw [runOps]
      rw [show stepOp ⟨q, d⟩ (QueueOp.push m) = ⟨q ++ [m], d⟩ from rfl]
      rw [ih ⟨q ++ [m], d⟩]
      simp [pushedMessages]
    | pop =>
      rw [runOps]
      cases q with
      | nil =>
        rw [show stepOp ⟨[], d⟩ QueueOp.pop = ⟨[], d⟩ from rfl]
        rw [ih ⟨[], d⟩]
        simp [pushedMessages]
      | cons m t =>
        rw [show stepOp ⟨m :: t, d⟩ QueueOp.pop = ⟨t, d ++ [m]⟩ from rfl]
        rw [ih ⟨t, d ++ [m]⟩]
        simp [pushedMessages]

/-! ## Claim theorems -/

/-- C1: for the identifier string `USB\VID_1234&PID_5678\...` the
extracted vendor id is `1234` (the substring between `VID_` and the
next `&`), and for every identifier string that does not contain
`VID_` the vendor id is `Unknown`. -/
theorem c1_vendor_id_extraction :
    (getDeviceDetails
      { Caption := none, Description := none,
        DeviceID := some "USB\\VID_1234&PID_5678\\...", Status := none }).VendorID = "1234" ∧
    ∀ (cap desc st : Option String) (id : String), pyIn "VID_" id = false →
      (getDeviceDetails
        { Caption := cap, Description := desc,
          DeviceID := some id, Status := st }).VendorID = "Unknown" := by
  constructor
  · rfl
  · intro cap desc st id h
    simp [getDeviceDetails_eq, h]

/-- Witness for C1 at a concrete identifier lacking `VID_`. -/
theorem c1_witness :
    pyIn "VID_" "USB\\ROOT_HUB20" = false ∧
    (getDeviceDetails
      { Caption := none, Description := none,
        DeviceID := some "USB\\ROOT_HUB20", Status := none }).VendorID = "Unknown" :=
  ⟨by decide, c1_vendor_id_extraction.2 none none none "USB\\ROOT_HUB20" (by decide)⟩

/-- C2: for every device record, each missing attribute yields
`Unknown` in the corresponding field of `get_device_details`, present
attributes are copied, and the function always returns (the exception
branch is never taken, so a present `Status` is always copied). -/
theorem c2_formatter_defaults (dev : Device) :
    (dev.Caption = none → dev.Description = none → (getDeviceDetails dev).Name = "Unknown") ∧
    (dev.DeviceID = none → (getDeviceDetails dev).VendorID = "Unknown") ∧
    (dev.Status = none → (getDeviceDetails dev).Status = "Unknown") ∧
    (∀ c, dev.Caption = some c → (getDeviceDetails dev).Name = c) ∧
    (∀ st, dev.Status = some st → (getDeviceDetails dev).Status = st) := by
  rw [getDeviceDetails_eq]
  refine ⟨?_, ?_, ?_, ?_, ?_⟩
  · intro h1 h2; rw [h1, h2]; rfl
  · intro h; rw [h]
  · intro h; rw [h]; rfl
  · intro c h; rw [h]; rfl
  · intro st h; rw [h]; rfl

/-- Witness for C2 at the record with every attribute absent. -/
theorem c2_witness :
    (getDeviceDetails
      { Caption := none, Description := none,
        DeviceID := none, Status := none }).Name = "Unknown" ∧
    (getDeviceDetails
      { Caption := none, Description := none,
        DeviceID := none, Status := none }).VendorID = "Unknown" ∧
    (getDeviceDetails
      { Caption := none, Description := none,
        DeviceID := none, Status := none }).Status = "Unknown" :=
  ⟨(c2_formatter_defaults _).1 rfl rfl,
   (c2_formatter_defaults _).2.1 rfl,
   (c2_formatter_defaults _).2.2.1 rfl⟩

/-- C9: a present `Caption` always becomes the `Name`, even when a
`Description` is also present; `Description` is used only when
`Caption` is absent. -/
theorem c9_caption_precedence (c d : String) (did st : Option String) :
    (getDeviceDetails
      { Caption := some c, Description := some d,
        DeviceID := did, Status := st }).Name = c ∧
    (getDeviceDetails
      { Caption := none, Description := some d,
        DeviceID := did, Status := st }).Name = d := by
  constructor <;> simp [getDeviceDetails_eq]

/-- C10 counterexample: on `VID_AVID_B&` the code yields `A`, while
the substring between the first `VID_` and the next `&` is `AVID_B`. -/
theorem c10_counterexample :
    vendorIdExpr "VID_AVID_B&" = Except.ok "A" ∧
    claimVendorId "VID_AVID_B&" = some "AVID_B" ∧
    ("A" : String) ≠ "AVID_B" :=
  ⟨rfl, rfl, by decide⟩

/-- C10 (amended): for every `DeviceID` containing `VID_` the split
expression never raises; it returns the part after the first `VID_`
truncated at the next `VID_` and then at the next `&` (so the empty
string when `VID_` is immediately followed by `&`, another `VID_`, or
the end of the string). -/
theorem c10_split_total_amended :
    (∀ id : String, pyIn "VID_" id = true →
      vendorIdExpr id = Except.ok (String.mk (takeBefore "&".data
        (takeBefore "VID_".data (afterSep "VID_".data id.data))))) ∧
    vendorIdExpr "USB\\VID_&PID_0001" = Except.ok "" :=
  ⟨fun _ h => vendorIdExpr_eq_ok h, rfl⟩

/-- Witness for C10 at a concrete identifier containing `VID_`. -/
theorem c10_witness :
    pyIn "VID_" "USB\\VID_1234&PID_5678" = true ∧
    vendorIdExpr "USB\\VID_1234&PID_5678" = Except.ok "1234" := by
  refine ⟨by decide, ?_⟩
  rw [c10_split_total_amended.1 "USB\\VID_1234&PID_5678" (by decide)]
  rfl

/-- C3: with zero current devices the enumeration queues exactly the
header message and nothing else; a creation event for the device with
identifier `USB\VID_ABCD&PID_0001` and caption `Test Device` queues a
single message containing `Name: Test Device`, `Vendor ID: ABCD` and a
status field. -/
theorem c3_end_to_end :
    (monitorDevices { setup := SetupOutcome.ok [], script := [] }).queued =
      ["=== Current USB Devices ==="] ∧
    (pollIteration ⟨WaitOutcome.result (some testCreationDevice),
      WaitOutcome.timeout⟩).1 = [newDeviceMessage testCreationDevice] ∧
    pyIn "Name: Test Device" (newDeviceMessage testCreationDevice) = true ∧
    pyIn "Vendor ID: ABCD" (newDeviceMessage testCreationDevice) = true ∧
    pyIn "Status: " (newDeviceMessage testCreationDevice) = true :=
  ⟨rfl, rfl, by decide, by decide, by decide⟩

/-- C4 counterexample: a watch-setup failure is raised before the
polling loop, so the loop runs zero of the one scripted iterations —
it does not continue past such a failure as the claim states. -/
theorem c4_counterexample :
    (monitorDevices ⟨SetupOutcome.failure "watch setup failed",
      [(true, ⟨WaitOutcome.timeout, WaitOutcome.timeout⟩)]⟩).iterations = 0 ∧
    (monitorDevices ⟨SetupOutcome.failure "watch setup failed",
      [(true, ⟨WaitOutcome.timeout, WaitOutcome.timeout⟩)]⟩).queued =
      ["Error initializing device monitoring: watch setup failed"] ∧
    [(true, (⟨WaitOutcome.timeout, WaitOutcome.timeout⟩ : PollInput))].length = 1 :=
  ⟨rfl, rfl, rfl⟩

/-- C4 (amended): inside the polling loop a timeout is silently
retried, a non-timeout wait failure is logged and queued and the loop
still runs every further iteration; a setup failure (device
enumeration or watch registration) is logged and queued once but the
loop then never runs. -/
theorem c4_poll_error_handling_amended :
    (∀ d, pollIteration ⟨WaitOutcome.timeout, d⟩ = ([], [])) ∧
    (∀ r, pollIteration ⟨WaitOutcome.result r, WaitOutcome.timeout⟩ = creationEvent r) ∧
    (∀ e d, pollIteration ⟨WaitOutcome.failure e, d⟩ =
      (["Error monitoring devices: " ++ e], ["Error in device monitoring: " ++ e])) ∧
    (∀ r e, pollIteration ⟨WaitOutcome.result r, WaitOutcome.failure e⟩ =
      ((creationEvent r).1 ++ ["Error monitoring devices: " ++ e],
       (creationEvent r).2 ++ ["Error in device monitoring: " ++ e])) ∧
    (∀ script : List (Bool × PollInput), (∀ p ∈ script, p.1 = true) →
      (monitorLoop script).iterations = script.length) ∧
    (∀ e script,
      (monitorDevices ⟨SetupOutcome.failure e, script⟩).iterations = 0 ∧
      (monitorDevices ⟨SetupOutcome.failure e, script⟩).queued =
        ["Error initializing device monitoring: " ++ e]) := by
  refine ⟨fun d => rfl, fun r => rfl, fun e d => rfl, fun r e => rfl, ?_,
    fun e s => ⟨rfl, rfl⟩⟩
  intro script h
  induction script with
  | nil => rfl
  | cons p rest ih =>
    obtain ⟨flag, inp⟩ := p
    have hflag : flag = true := h (flag, inp) (List.mem_cons_self _ _)
    subst hflag
    have ih2 := ih (fun q hq => h q (List.mem_cons_of_mem _ hq))
    simp [monitorLoop, ih2]

/-- Witness for C4: a script whose first iteration fails and whose
second is a plain timeout still runs both iterations. -/
theorem c4_witness :
    (monitorLoop
      [(true, ⟨WaitOutcome.failure "poll error", WaitOutcome.timeout⟩),
       (true, ⟨WaitOutcome.timeout, WaitOutcome.timeout⟩)]).iterations = 2 := by
  have h := c4_poll_error_handling_amended.2.2.2.2.1
    [(true, ⟨WaitOutcome.failure "poll error", WaitOutcome.timeout⟩),
     (true, ⟨WaitOutcome.timeout, WaitOutcome.timeout⟩)] (by decide)
  simpa using h

/-- C5: the loop reads the `running` flag once per iteration: it runs
exactly the iterations before the first `false` reading, so it never
begins a new poll iteration once it has observed `false`. -/
theorem c5_running_flag_bounds_loop :
    (∀ script : List (Bool × PollInput),
      (monitorLoop script).iterations = (script.takeWhile (fun p => p.1)).length) ∧
    (∀ (script : List (Bool × PollInput)) (i : Nat) (inp : PollInput),
      script[i]? = some (false, inp) → (monitorLoop script).iterations ≤ i) := by
  have key : ∀ script : List (Bool × PollInput),
      (monitorLoop script).iterations = (script.takeWhile (fun p => p.1)).length := by
    intro script
    induction script with
    | nil => rfl
    | cons p rest ih =>
      obtain ⟨flag, inp⟩ := p
      cases flag
      · simp [monitorLoop, List.takeWhile]
      · simp [monitorLoop, List.takeWhile, ih]
  refine ⟨key, ?_⟩
  intro script i inp h
  rw [key]
  clear key
  induction script generalizing i with
  | nil => simp at h
  | cons p rest ih =>
    obtain ⟨flag, inp2⟩ := p
    cases i with
    | zero =>
      simp at h
      obtain ⟨hf, _⟩ := h
      subst hf
      simp [List.takeWhile]
    | succ j =>
      rw [List.getElem?_cons_succ] at h
      cases flag
      · simp [List.takeWhile]
      · have hj := ih j h
        simp only [List.takeWhile, List.length_cons]
        simpa using Nat.succ_le_succ hj

/-- Witness for C5: a `false` flag reading in the second slot stops
the loop after at most one iteration. -/
theorem c5_witness :
    (monitorLoop
      [(true, ⟨WaitOutcome.timeout, WaitOutcome.timeout⟩),
       (false, ⟨WaitOutcome.timeout, WaitOutcome.timeout⟩)]).iterations ≤ 1 :=
  c5_running_flag_bounds_loop.2 _ 1 ⟨WaitOutcome.timeout, WaitOutcome.timeout⟩ rfl

/-- C6: for every device record, the `Device Found` and
`New Device Connected` messages carry a `Status:` line, while no line
of the `Device Disconnected` message starts with `Status:`. -/
theorem c6_status_line_asymmetry (det : DeviceDetails) :
    ("Status: " ++ det.Status) ∈ deviceFoundLines det ∧
    ("Status: " ++ det.Status) ∈ newDeviceLines det ∧
    (deviceDisconnectedLines det).all
      (fun line => !(List.isPrefixOf "Status:".data line.data)) = true := by
  refine ⟨?_, ?_, ?_⟩
  · simp [deviceFoundLines]
  · simp [newDeviceLines]
  · simp only [deviceDisconnectedLines, List.all_cons, List.all_nil, Bool.and_true,
      Bool.and_eq_true, Bool.not_eq_true']
    refine ⟨?_, ?_, ?_, ?_⟩
    · decide
    · rw [show ("Name: " ++ det.Name).data =
          'N' :: ("ame: ".data ++ det.Name.data) from by rw [String.data_append]; rfl]
      exact status_not_isPrefixOf_cons (by decide) _
    · rw [show ("Vendor ID: " ++ det.VendorID).data =
          'V' :: ("endor ID: ".data ++ det.VendorID.data) from by
            rw [String.data_append]; rfl]
      exact status_not_isPrefixOf_cons (by decide) _
    · decide

/-- C7: the `Clear Log` action empties the visible text widget and
leaves the log file, the event queue and the `running` flag unchanged. -/
theorem c7_clear_log_frame (s : AppState) :
    (clearLog s).textBox = [] ∧ (clearLog s).logFile = s.logFile ∧
    (clearLog s).queue = s.queue ∧ (clearLog s).running = s.running :=
  ⟨rfl, rfl, rfl, rfl⟩

/-- C8: under any interleaving of producer pushes and consumer drain
steps starting from the empty queue, the displayed messages followed by
the still-queued ones are exactly the pushed messages in push order, so
delivery is FIFO. -/
theorem c8_event_queue_fifo (ops : List QueueOp) :
    (runOps { queue := [], displayed := [] } ops).displayed ++
        (runOps { queue := [], displayed := [] } ops).queue = pushedMessages ops ∧
    ∃ rest, (runOps { queue := [], displayed := [] } ops).displayed ++ rest =
      pushedMessages ops := by
  have h := runOps_fifo ops { queue := [], displayed := [] }
  simp only [List.nil_append] at h
  exact ⟨h, ⟨_, h⟩⟩

end Docky
